import Mathlib

/-
Verification development for the dom-input-range library: a mirror ("clone")
element is kept in sync with a live text input, and native range queries over
the mirror's text node are translated back into input-relative viewport
coordinates. The definitions below are a shallow embedding of the relevant
classes:
  - InputRange               (src/input-range.ts)
  - InputStyleClone          (src/unnamed/part_001, first class; the
                              EventTarget version with the frame-coalesced
                              scheduler and the CloneRegistry WeakMap)
  - offsetCloneRect          (src/input-style-clone.ts, textarea version, and
                              src/unnamed/part_001, second class)
  - the part_002 InputRange  (early version with detach and a throwing
                              private rect-translation helper)
Pixel coordinates are exact rationals; JS character offsets are integers
(they can be negative); DOM text content is a String. Native browser
behaviour that the code relies on (Range boundary checks, geometry of a
fresh collapsed range, text layout) is modelled explicitly where its
documented behaviour is fixed, and left as an abstract oracle (TextLayout)
where it is not.
-/

/-- Pixel rectangle as produced by DOM geometry queries, with the DOMRect
fields left, top, width and height; coordinates are exact rationals. -/
structure DOMRect where
  left : ℚ
  top : ℚ
  width : ℚ
  height : ℚ
deriving DecidableEq, Repr

/-- The all-zero rect produced by the DOMRect constructor with no arguments. -/
def DOMRect.zero : DOMRect := ⟨0, 0, 0, 0⟩

/-- The target input element as seen by InputRange (src/input-range.ts): its
text value and the current user selection, where selectionStart and
selectionEnd are null when unavailable. -/
structure InputElementModel where
  value : String
  selectionStart : Option Nat
  selectionEnd : Option Nat
deriving DecidableEq, Repr

/-- State of an InputRange (src/input-range.ts): the private fields
storing the element and the two offsets. -/
structure InputRange where
  inputElement : InputElementModel
  startOffset : Int
  endOffset : Int
deriving DecidableEq, Repr

/-- InputRange constructor (src/input-range.ts lines 38-42): stores the given
offsets verbatim; no clamping is performed at construction. -/
def InputRange.construct (element : InputElementModel) (startOffset : Int)
    (endOffset : Int) : InputRange :=
  { inputElement := element, startOffset := startOffset, endOffset := endOffset }

/-- InputRange constructor call with optional arguments, applying the TS
default parameters startOffset = 0 and endOffset = startOffset. -/
def InputRange.constructOpt (element : InputElementModel)
    (startOffset : Option Int) (endOffset : Option Int) : InputRange :=
  let s := startOffset.getD 0
  let e := endOffset.getD s
  InputRange.construct element s e

/-- InputRange clampOffset (src/input-range.ts lines 155-157):
Math.max(0, Math.min(offset, value.length)). -/
def InputRange.clampOffset (r : InputRange) (offset : Int) : Int :=
  max 0 (min offset (r.inputElement.value.length : Int))

/-- InputRange.setStartOffset (src/input-range.ts lines 86-88): stores the
clamped offset. -/
def InputRange.setStart (r : InputRange) (offset : Int) : InputRange :=
  { r with startOffset := r.clampOffset offset }

/-- InputRange.setEndOffset (src/input-range.ts lines 91-93): stores the
clamped offset. -/
def InputRange.setEnd (r : InputRange) (offset : Int) : InputRange :=
  { r with endOffset := r.clampOffset offset }

/-- InputRange.collapsed (src/input-range.ts lines 58-60): start equals end. -/
def InputRange.collapsed (r : InputRange) : Bool :=
  r.startOffset == r.endOffset

/-- InputRange.fromSelection (src/input-range.ts lines 52-55): construct with
selectionStart and selectionEnd, passing undefined (so that the constructor
defaults apply) for each one that is null. -/
def InputRange.fromSelection (input : InputElementModel) : InputRange :=
  InputRange.constructOpt input (input.selectionStart.map Int.ofNat)
    (input.selectionEnd.map Int.ofNat)

/-- Result of the DOM textContent setter on the clone element: assigning a
non-empty string creates a single child Text node holding it; assigning the
empty string leaves the element with no child nodes at all. -/
def childTextNode (textContent : String) : Option String :=
  if textContent = "" then none else some textContent

/-- Native Range as used by InputRange createCloneRange: either the fresh
collapsed document range (setStart and setEnd never called) or a range over
the clone's single text node with the given boundary offsets. -/
inductive CloneRange where
  | fresh : CloneRange
  | onText (text : String) (startOffset endOffset : Int) : CloneRange
deriving DecidableEq, Repr

/-- Native Range.setStart / Range.setEnd boundary check: an offset that is
negative or greater than the text node's length raises an IndexSizeError. -/
def setBoundaryOk (text : String) (offset : Int) : Bool :=
  decide (0 ≤ offset) && decide (offset ≤ (text.length : Int))

/-- InputRange createCloneRange (src/input-range.ts lines 159-172): create a
fresh native range; if the clone element has a child text node, set the range
start and end to the stored offsets (which can raise a native
IndexSizeError); with no text node the fresh range is returned untouched. -/
def InputRange.createCloneRange (r : InputRange) (cloneTextContent : String) :
    Except String CloneRange :=
  match childTextNode cloneTextContent with
  | none => Except.ok CloneRange.fresh
  | some t =>
      if setBoundaryOk t r.startOffset && setBoundaryOk t r.endOffset then
        Except.ok (CloneRange.onText t r.startOffset r.endOffset)
      else
        Except.error ("IndexSizeError")

/-- Native text layout oracle: for a range over a rendered text node the
browser produces a list of client rects and one bounding rect. It is left
abstract; the code under verification never inspects its values. -/
structure TextLayout where
  clientRects : String → Int → Int → List DOMRect
  boundingRect : String → Int → Int → DOMRect

/-- Native Range.getClientRects: the empty list for a fresh collapsed document
range; the layout oracle's answer for a range over a text node. -/
def CloneRange.getClientRects (L : TextLayout) : CloneRange → List DOMRect
  | CloneRange.fresh => []
  | CloneRange.onText t s e => L.clientRects t s e

/-- Native Range.getBoundingClientRect: the all-zero rect for a fresh
collapsed document range; the layout oracle's answer otherwise. -/
def CloneRange.getBoundingClientRect (L : TextLayout) : CloneRange → DOMRect
  | CloneRange.fresh => DOMRect.zero
  | CloneRange.onText t s e => L.boundingRect t s e

/-- Geometry of the live input element at the instant of a query: its viewport
bounding rect and its scroll offsets. -/
structure InputGeometry where
  boundingRect : DOMRect
  scrollTop : ℚ
  scrollLeft : ℚ
deriving DecidableEq, Repr

/-- InputStyleClone.offsetCloneRect (src/input-style-clone.ts lines 277-299,
identically src/unnamed/part_001 lines 372-394): given a rect from the native
range query over the clone, the clone element's current bounding rect and the
weakly referenced input (none once collected), return the rect translated
into input-relative viewport coordinates, or the all-zero rect when the input
is gone. -/
def offsetCloneRect (input : Option InputGeometry) (cloneRect : DOMRect)
    (rect : DOMRect) : DOMRect :=
  match input with
  | none => DOMRect.zero
  | some inputElement =>
      let inputRect := inputElement.boundingRect
      { left := rect.left - cloneRect.left + inputRect.left - inputElement.scrollLeft
        top := rect.top - cloneRect.top + inputRect.top - inputElement.scrollTop
        width := rect.width
        height := rect.height }

/-- propertiesToCopy (src/unnamed/part_001 lines 260-300): the fixed list of
style properties copied verbatim from the input to the clone. -/
def propertiesToCopy : List String :=
  ["direction", "writingMode", "unicodeBidi", "textOrientation", "boxSizing",
   "borderTopWidth", "borderRightWidth", "borderBottomWidth", "borderLeftWidth",
   "borderStyle", "paddingTop", "paddingRight", "paddingBottom", "paddingLeft",
   "fontStyle", "fontVariant", "fontWeight", "fontStretch", "fontSize",
   "fontSizeAdjust", "lineHeight", "fontFamily", "textAlign", "textTransform",
   "textIndent", "textDecoration", "letterSpacing", "wordSpacing", "tabSize",
   "MozTabSize"]

/-- Everything the browser reports about the still-live input and the clone at
the instant a synchronization callback reads the DOM: computed style height
and width, client box sizes of input and clone, viewport bounding rects of
both, the input's scroll offsets and value, and the input's resolved style. -/
structure Measurement where
  styleHeight : ℚ
  styleWidth : ℚ
  inputClientHeight : ℚ
  cloneClientHeight : ℚ
  inputClientWidth : ℚ
  cloneClientWidth : ℚ
  inputRect : DOMRect
  cloneRect : DOMRect
  inputScrollTop : ℚ
  inputScrollLeft : ℚ
  inputValue : String
  inputResolvedStyle : String → String

/-- Mutable per-instance state of the part_001 InputStyleClone: the clone
subtree's style and text state, the accumulated geometric offset and the
translation transform applied from it, the frame-coalescing scheduler state
(isLayoutUpdating flag plus the number of animation-frame callbacks currently
scheduled), and the DOM / observer / listener / cache bookkeeping touched by
disconnect. layoutPasses counts completed layout passes and updateEvents
counts dispatched update events. -/
structure CloneState where
  styles : String → String
  textContent : String
  styleHeight : ℚ
  styleWidth : ℚ
  xOffset : ℚ
  yOffset : ℚ
  styleTransform : ℚ × ℚ
  scrollTop : ℚ
  scrollLeft : ℚ
  isLayoutUpdating : Bool
  scheduledFrames : Nat
  containerAttached : Bool
  styleObserverConnected : Bool
  resizeObserverConnected : Bool
  documentScrollListener : Bool
  windowResizeListener : Bool
  inputListener : Bool
  layoutPasses : Nat
  updateEvents : Nat

/-- InputStyleClone.disconnect (src/unnamed/part_001 lines 132-145): remove
the container from the DOM, disconnect both observers, remove the document
scroll and window resize listeners; then, only if the weak input reference
still resolves, remove the input event listener (the registry effect is
modelled on the registry itself, see regDelete and weakRegistryCollect). -/
def disconnect (inputAlive : Bool) (s : CloneState) : CloneState :=
  let t := { s with containerAttached := false,
                    styleObserverConnected := false,
                    resizeObserverConnected := false,
                    documentScrollListener := false,
                    windowResizeListener := false }
  if inputAlive then { t with inputListener := false } else t

/-- InputStyleClone usingInput (src/unnamed/part_001 lines 153-158): run fn
with the input's measurement if the weak reference still resolves; otherwise
clean up the clone via disconnect. -/
def usingInput (m : Option Measurement)
    (fn : Measurement → CloneState → CloneState) (s : CloneState) : CloneState :=
  match m with
  | none => disconnect false s
  | some mm => fn mm s

/-- Body of InputStyleClone updateLayout (src/unnamed/part_001 lines 169-200)
in the branch where the input is live: set the clone's height and width from
the input's computed style, correct each by the client-size delta when input
and clone disagree, add the bounding-rect delta to the accumulated offset,
apply the updated offset as the translation transform, copy the input's
scroll offsets, and dispatch an update event. -/
def updateLayoutBody (m : Measurement) (s : CloneState) : CloneState :=
  let h := if m.inputClientHeight = m.cloneClientHeight then m.styleHeight
           else m.styleHeight + (m.inputClientHeight - m.cloneClientHeight)
  let w := if m.inputClientWidth = m.cloneClientWidth then m.styleWidth
           else m.styleWidth + (m.inputClientWidth - m.cloneClientWidth)
  let x := s.xOffset + m.inputRect.left - m.cloneRect.left
  let y := s.yOffset + m.inputRect.top - m.cloneRect.top
  { s with
      styleHeight := h
      styleWidth := w
      xOffset := x
      yOffset := y
      styleTransform := (x, y)
      scrollTop := m.inputScrollTop
      scrollLeft := m.inputScrollLeft
      layoutPasses := s.layoutPasses + 1
      updateEvents := s.updateEvents + 1 }

/-- InputStyleClone updateLayout: the body guarded by usingInput. -/
def updateLayout (m : Option Measurement) (s : CloneState) : CloneState :=
  usingInput m updateLayoutBody s

/-- InputStyleClone requestUpdateLayout (src/unnamed/part_001 lines 203-214):
if a layout update is already pending, do nothing; otherwise set the pending
flag and schedule exactly one animation-frame callback. -/
def requestUpdateLayout (s : CloneState) : CloneState :=
  if s.isLayoutUpdating then s
  else { s with isLayoutUpdating := true, scheduledFrames := s.scheduledFrames + 1 }

/-- Firing of the animation-frame callback scheduled by requestUpdateLayout:
run updateLayout once, then clear the pending flag; the scheduled callback is
consumed. -/
def fireScheduledFrame (m : Option Measurement) (s : CloneState) : CloneState :=
  let t := updateLayout m s
  { t with isLayoutUpdating := false, scheduledFrames := t.scheduledFrames - 1 }

/-- Body of InputStyleClone updateStyles (src/unnamed/part_001 lines 217-225):
copy every property in propertiesToCopy from the input's resolved style onto
the clone, then request a coalesced layout update. -/
def updateStylesBody (m : Measurement) (s : CloneState) : CloneState :=
  requestUpdateLayout
    { s with styles := fun p =>
        if propertiesToCopy.contains p then m.inputResolvedStyle p else s.styles p }

/-- InputStyleClone updateStyles: the body guarded by usingInput. -/
def updateStyles (m : Option Measurement) (s : CloneState) : CloneState :=
  usingInput m updateStylesBody s

/-- Body of InputStyleClone updateText (src/unnamed/part_001 lines 231-241):
set the clone's textContent to the input's value, then run updateLayout
synchronously (deliberately not through requestUpdateLayout, so that clients
can react within their own input event handlers). -/
def updateTextBody (m : Measurement) (s : CloneState) : CloneState :=
  updateLayoutBody m { s with textContent := m.inputValue }

/-- InputStyleClone updateText: the body guarded by usingInput. -/
def updateText (m : Option Measurement) (s : CloneState) : CloneState :=
  usingInput m updateTextBody s

/-- InputStyleClone onInput (src/unnamed/part_001 line 243): the capture-phase
input event handler; it runs updateText. -/
def onInput (m : Option Measurement) (s : CloneState) : CloneState :=
  updateText m s

/-- Origin of a document-level scroll or window resize event as tested by
onDocumentScrollOrResize: the document, the window, or some node which may or
may not contain the tracked input. -/
inductive ScrollEventOrigin where
  | document : ScrollEventOrigin
  | window : ScrollEventOrigin
  | node (containsInput : Bool) : ScrollEventOrigin
deriving DecidableEq, Repr

/-- InputStyleClone onDocumentScrollOrResize (src/unnamed/part_001 lines
245-254): on a document scroll or window resize, request a coalesced layout
update only if the event originated at the document, the window, or a node
containing the input; gone-input handling via usingInput. -/
def onDocumentScrollOrResize (m : Option Measurement) (origin : ScrollEventOrigin)
    (s : CloneState) : CloneState :=
  usingInput m (fun _ t =>
    match origin with
    | ScrollEventOrigin.document => requestUpdateLayout t
    | ScrollEventOrigin.window => requestUpdateLayout t
    | ScrollEventOrigin.node c => if c then requestUpdateLayout t else t) s

/-- Identity of a live input element, the key of the CloneRegistry WeakMap. -/
abbrev InputId := Nat

/-- Identity of a constructed InputStyleClone instance. -/
abbrev CloneId := Nat

/-- CloneRegistry.get (WeakMap semantics): the binding for the input, if any. -/
def regGet (r : List (InputId × CloneId)) (i : InputId) : Option CloneId :=
  (r.find? (fun e => e.1 == i)).map (fun e => e.2)

/-- CloneRegistry.set (WeakMap semantics): bind the input to the clone,
replacing any existing binding for that input. -/
def regSet (r : List (InputId × CloneId)) (i : InputId) (c : CloneId) :
    List (InputId × CloneId) :=
  (i, c) :: r.filter (fun e => e.1 != i)

/-- CloneRegistry.delete (WeakMap semantics): drop the binding for the input. -/
def regDelete (r : List (InputId × CloneId)) (i : InputId) :
    List (InputId × CloneId) :=
  r.filter (fun e => e.1 != i)

/-- Garbage collection of a WeakMap key: when an input is collected, its
binding disappears from the registry without any library code running. -/
def weakRegistryCollect (r : List (InputId × CloneId)) (i : InputId) :
    List (InputId × CloneId) :=
  r.filter (fun e => e.1 != i)

/-- The CloneRegistry (src/unnamed/part_001 line 9) together with a supply of
fresh clone identities for the constructor. -/
structure CacheState where
  registry : List (InputId × CloneId)
  nextCloneId : CloneId
deriving DecidableEq, Repr

/-- InputStyleClone.for (src/unnamed/part_001 lines 50-59): look the input up
in the CloneRegistry; if no clone is registered, construct a new one and
register it; return the clone. -/
def cloneFor (i : InputId) (s : CacheState) : CloneId × CacheState :=
  match regGet s.registry i with
  | some c => (c, s)
  | none => (s.nextCloneId, ⟨regSet s.registry i s.nextCloneId, s.nextCloneId + 1⟩)

/-- Well-formedness of the registry: at most one binding per input. A WeakMap
cannot hold two bindings for one key; for the association-list model this is
the invariant that the key list has no duplicates. -/
def registryWF (r : List (InputId × CloneId)) : Prop :=
  (r.map Prod.fst).Nodup

/-- Clone div of the early (part_002 era) InputStyleClone: its viewport
bounding rect and its child text node, if any. -/
structure P2CloneElement where
  boundingRect : DOMRect
  textNode : Option String
deriving DecidableEq, Repr

/-- Input element as seen by the part_002 InputRange: value, viewport
bounding rect and scroll offsets. -/
structure P2Input where
  value : String
  boundingRect : DOMRect
  scrollTop : ℚ
  scrollLeft : ℚ
deriving DecidableEq, Repr

/-- State of the part_002 InputRange: the style clone reference (nulled by
detach), the weakly referenced input (none once collected), and the two
public offset fields. -/
structure P2Range where
  styleClone : Option P2CloneElement
  input : Option P2Input
  startOffset : Int
  endOffset : Int
deriving DecidableEq, Repr

/-- The part_002 private cloneElement getter: styleClone?.cloneElement, where
the underlying cloneElement getter (src/input-clone.ts) yields undefined once
the input is collected and otherwise refreshes the clone's textContent from
the input's value before returning it. -/
def p2cloneElement (r : P2Range) : Option P2CloneElement :=
  match r.styleClone, r.input with
  | some c, some i => some { c with textNode := childTextNode i.value }
  | _, _ => none

/-- The part_002 InputRange private offsetCloneRect (src/unnamed/part_002
lines 55-78): throws when the clone element or the input is unavailable;
otherwise returns the rect translated into input-relative coordinates. -/
def p2offsetCloneRect (r : P2Range) (rect : DOMRect) : Except String DOMRect :=
  match p2cloneElement r, r.input with
  | some c, some i =>
      Except.ok
        { left := rect.left - c.boundingRect.left + i.boundingRect.left - i.scrollLeft
          top := rect.top - c.boundingRect.top + i.boundingRect.top - i.scrollTop
          width := rect.width
          height := rect.height }
  | _, _ =>
      Except.error
        ("Failed to obtain elements to offset rect. Ensure that the function was not called after unmount.")

/-- The part_002 InputRange.getClientRects (src/unnamed/part_002 lines 18-35):
if the clone element or the input is unavailable, return an empty
DOMRectListLike; otherwise build a native range over the clone's first child
node (setStart throws a TypeError when there is no child, or an
IndexSizeError on out-of-bounds offsets), query its client rects, and map
each through the private offsetCloneRect. -/
def p2getClientRects (L : TextLayout) (r : P2Range) : Except String (List DOMRect) :=
  match p2cloneElement r, r.input with
  | some c, some _ =>
      match c.textNode with
      | none => Except.error ("TypeError")
      | some t =>
          if setBoundaryOk t r.startOffset && setBoundaryOk t r.endOffset then
            (L.clientRects t r.startOffset r.endOffset).mapM (p2offsetCloneRect r)
          else Except.error ("IndexSizeError")
  | _, _ => Except.ok []

/-- The part_002 InputRange.detach (src/unnamed/part_002 lines 37-40): detach
the underlying style clone and null the reference to it. -/
def p2detach (r : P2Range) : P2Range :=
  { r with styleClone := none }

/-- A concrete trivial text layout oracle, used by concrete witnesses. -/
def sampleLayout : TextLayout :=
  ⟨fun _ _ _ => [], fun _ _ _ => DOMRect.zero⟩

/-- A concrete part_002 InputRange that has been explicitly detached while its
input is still alive. -/
def detachedSampleRange : P2Range :=
  p2detach
    { styleClone := some ⟨⟨1, 2, 30, 40⟩, some "hello"⟩
      input := some ⟨"hello", ⟨5, 6, 30, 40⟩, 0, 0⟩
      startOffset := 0
      endOffset := 3 }

/-- A concrete idle clone state, used by concrete witnesses. -/
def sampleState : CloneState where
  styles := fun _ => ""
  textContent := "hi"
  styleHeight := 20
  styleWidth := 100
  xOffset := 3
  yOffset := 4
  styleTransform := (3, 4)
  scrollTop := 0
  scrollLeft := 0
  isLayoutUpdating := false
  scheduledFrames := 0
  containerAttached := true
  styleObserverConnected := true
  resizeObserverConnected := true
  documentScrollListener := true
  windowResizeListener := true
  inputListener := true
  layoutPasses := 0
  updateEvents := 0

/-- A concrete measurement, used by concrete witnesses. -/
def sampleMeasurement : Measurement where
  styleHeight := 20
  styleWidth := 100
  inputClientHeight := 18
  cloneClientHeight := 18
  inputClientWidth := 98
  cloneClientWidth := 98
  inputRect := ⟨10, 20, 100, 20⟩
  cloneRect := ⟨10, 50, 100, 20⟩
  inputScrollTop := 0
  inputScrollLeft := 0
  inputValue := "hi"
  inputResolvedStyle := fun _ => ""

/-- Helper: a registry lookup right after a set finds the new binding. -/
theorem regGet_regSet (r : List (InputId × CloneId)) (i : InputId) (c : CloneId) :
    regGet (regSet r i c) i = some c := by
  unfold regGet regSet
  rw [List.find?_cons_of_pos _ (by simp)]
  rfl

/-- Helper: filtering for a key right after a set yields exactly the new
binding. -/
theorem regSet_filter_eq (r : List (InputId × CloneId)) (i : InputId) (c : CloneId) :
    (regSet r i c).filter (fun e => e.1 == i) = [(i, c)] := by
  unfold regSet
  rw [List.filter_cons_of_pos (by simp)]
  have : (r.filter (fun e => e.1 != i)).filter (fun e => e.1 == i) = [] := by
    rw [List.filter_eq_nil_iff]
    intro x hx
    have hne := (List.mem_filter.1 hx).2
    simp only [bne_iff_ne, ne_eq] at hne
    simp [hne]
  rw [this]

/-- Helper: a set preserves the at-most-one-binding-per-input invariant. -/
theorem regSet_WF (r : List (InputId × CloneId)) (i : InputId) (c : CloneId)
    (h : registryWF r) : registryWF (regSet r i c) := by
  unfold registryWF regSet at *
  rw [List.map_cons, List.nodup_cons]
  refine ⟨?_, ?_⟩
  · intro hmem
    obtain ⟨e, he, hfst⟩ := List.mem_map.1 hmem
    have hne := (List.mem_filter.1 he).2
    rw [hfst] at hne
    simp at hne
  · exact h.sublist ((List.filter_sublist r).map Prod.fst)

/-- Helper: on a well-formed registry, at most one binding matches a key. -/
theorem registryWF_filter_length_le_one (r : List (InputId × CloneId)) (i : InputId)
    (h : registryWF r) : (r.filter (fun e => e.1 == i)).length ≤ 1 := by
  induction r with
  | nil => simp
  | cons e r ih =>
      rw [registryWF, List.map_cons, List.nodup_cons] at h
      by_cases he : e.1 = i
      · rw [List.filter_cons_of_pos (by simp [he])]
        have hnil : r.filter (fun e => e.1 == i) = [] := by
          rw [List.filter_eq_nil_iff]
          intro x hx hxi
          rw [beq_iff_eq] at hxi
          exact h.1 (List.mem_map.2 ⟨x, hx, by rw [hxi, he]⟩)
        simp [hnil]
      · rw [List.filter_cons_of_neg (by simp [he])]
        exact ih h.2

/-- Helper: once an input is collected, the WeakMap registry has no binding
for it any more. -/
theorem regGet_weakRegistryCollect (r : List (InputId × CloneId)) (i : InputId) :
    regGet (weakRegistryCollect r i) i = none := by
  have hnone : (r.filter (fun e => e.1 != i)).find? (fun e => e.1 == i) = none := by
    rw [List.find?_eq_none]
    intro x hx
    have hne := (List.mem_filter.1 hx).2
    simp only [bne_iff_ne, ne_eq] at hne
    simp [hne]
  simp [regGet, weakRegistryCollect, hnone]

/-- Claim C1 (code bug witness): on an input whose value has length 3, the
InputRange constructor called with startOffset = -5 and endOffset = 3 + 100
stores the offsets verbatim: the startOffset and endOffset getters report -5
and 103, outside [0, 3], and the rect query path raises an IndexSizeError
instead of agreeing with the clamped construction (0, 3), whose range build
succeeds. The clamp used by setStartOffset and setEndOffset would have
produced 0 and 3; the constructor never invokes it, contradicting its own doc
comment that the offsets will be adjusted to fit in the input contents. -/
theorem c1_constructor_does_not_clamp :
    (InputRange.construct ⟨"abc", none, none⟩ (-5) 103).startOffset = -5 ∧
    (InputRange.construct ⟨"abc", none, none⟩ (-5) 103).endOffset = 103 ∧
    (InputRange.construct ⟨"abc", none, none⟩ (-5) 103).clampOffset (-5) = 0 ∧
    (InputRange.construct ⟨"abc", none, none⟩ (-5) 103).clampOffset 103 = 3 ∧
    (InputRange.construct ⟨"abc", none, none⟩ (-5) 103).createCloneRange "abc" =
      Except.error ("IndexSizeError") ∧
    (InputRange.construct ⟨"abc", none, none⟩ 0 3).createCloneRange "abc" =
      Except.ok (CloneRange.onText "abc" 0 3) :=
  ⟨rfl, rfl, by decide, by decide, rfl, rfl⟩

/-- Claim C2: for every rect r from the native range query over the mirror's
text node, with C the clone element's current bounding rect, I the live
input's current bounding rect and (sx, sy) its (scrollLeft, scrollTop), the
translated rect equals DOMRect(r.left - C.left + I.left - sx,
r.top - C.top + I.top - sy, r.width, r.height); width and height are
preserved unchanged. -/
theorem c2_offset_translation (g : InputGeometry) (cloneRect r : DOMRect) :
    offsetCloneRect (some g) cloneRect r =
      ⟨r.left - cloneRect.left + g.boundingRect.left - g.scrollLeft,
       r.top - cloneRect.top + g.boundingRect.top - g.scrollTop,
       r.width, r.height⟩ ∧
    (offsetCloneRect (some g) cloneRect r).width = r.width ∧
    (offsetCloneRect (some g) cloneRect r).height = r.height :=
  ⟨rfl, rfl, rfl⟩

/-- Claim C3: a layout pass updates the geometric offset additively: from
offset (x, y), with observed delta (dx, dy) = (inputRect.left - cloneRect.left,
inputRect.top - cloneRect.top), the offset after the pass is exactly
(x + dx, y + dy), and exactly that updated offset is applied as the clone's
translation transform. -/
theorem c3_layout_offset_additive (m : Measurement) (s : CloneState) :
    (updateLayout (some m) s).xOffset =
      s.xOffset + (m.inputRect.left - m.cloneRect.left) ∧
    (updateLayout (some m) s).yOffset =
      s.yOffset + (m.inputRect.top - m.cloneRect.top) ∧
    (updateLayout (some m) s).styleTransform =
      ((updateLayout (some m) s).xOffset, (updateLayout (some m) s).yOffset) := by
  refine ⟨?_, ?_, rfl⟩ <;>
    simp only [updateLayout, usingInput, updateLayoutBody] <;> ring

/-- Claim C4: two consecutive InputStyleClone.for calls with the same input
and no intervening release return the identical clone instance and leave the
cache unchanged; moreover the registry stays well formed and holds at most
one live binding for the input. -/
theorem c4_cache_unique (i : InputId) (s : CacheState) (h : registryWF s.registry) :
    (cloneFor i (cloneFor i s).2).1 = (cloneFor i s).1 ∧
    (cloneFor i (cloneFor i s).2).2 = (cloneFor i s).2 ∧
    registryWF (cloneFor i s).2.registry ∧
    ((cloneFor i s).2.registry.filter (fun e => e.1 == i)).length ≤ 1 := by
  rcases hr : regGet s.registry i with _ | c
  · have key := regGet_regSet s.registry i s.nextCloneId
    refine ⟨?_, ?_, ?_, ?_⟩
    · simp [cloneFor, hr, key]
    · simp [cloneFor, hr, key]
    · simpa [cloneFor, hr] using regSet_WF s.registry i s.nextCloneId h
    · simp [cloneFor, hr, regSet_filter_eq]
  · exact ⟨by simp [cloneFor, hr], by simp [cloneFor, hr], by simpa [cloneFor, hr] using h,
      by simpa [cloneFor, hr] using registryWF_filter_length_le_one s.registry i h⟩

/-- Claim C4 witness: concrete double acquisition on the empty cache. -/
theorem c4_cache_unique_witness :
    (cloneFor 7 (cloneFor 7 ⟨[], 0⟩).2).1 = (cloneFor 7 ⟨[], 0⟩).1 ∧
    (cloneFor 7 (cloneFor 7 ⟨[], 0⟩).2).2 = (cloneFor 7 ⟨[], 0⟩).2 ∧
    registryWF (cloneFor 7 (⟨[], 0⟩ : CacheState)).2.registry ∧
    ((cloneFor 7 (⟨[], 0⟩ : CacheState)).2.registry.filter
      (fun e => e.1 == 7)).length ≤ 1 :=
  c4_cache_unique 7 ⟨[], 0⟩ (by simp [registryWF])

/-- Claim C5: when the weak input reference no longer resolves, every
synchronization callback (style sync, layout sync, text sync, and the
document scroll / window resize handler) performs no synchronization and
instead runs the full self-teardown: each equals disconnect applied to the
state, which removes the container from the DOM, disconnects both observers
and removes the document and window listeners while leaving every
synchronization field (styles, text, offsets) untouched; and the WeakMap
cache holds no entry for a collected input. The callbacks are total
functions of the state: the condition is never surfaced as an error. -/
theorem c5_gone_input_teardown (s : CloneState) (origin : ScrollEventOrigin)
    (r : List (InputId × CloneId)) (i : InputId) :
    updateStyles none s = disconnect false s ∧
    updateLayout none s = disconnect false s ∧
    updateText none s = disconnect false s ∧
    onDocumentScrollOrResize none origin s = disconnect false s ∧
    (disconnect false s).containerAttached = false ∧
    (disconnect false s).styleObserverConnected = false ∧
    (disconnect false s).resizeObserverConnected = false ∧
    (disconnect false s).documentScrollListener = false ∧
    (disconnect false s).windowResizeListener = false ∧
    (disconnect false s).styles = s.styles ∧
    (disconnect false s).textContent = s.textContent ∧
    (disconnect false s).xOffset = s.xOffset ∧
    (disconnect false s).yOffset = s.yOffset ∧
    (disconnect false s).layoutPasses = s.layoutPasses ∧
    regGet (weakRegistryCollect r i) i = none :=
  ⟨rfl, rfl, rfl, rfl, rfl, rfl, rfl, rfl, rfl, rfl, rfl, rfl, rfl, rfl,
    regGet_weakRegistryCollect r i⟩

/-- Claim C6: the input event handler runs the text synchronizer
synchronously, and the text synchronizer invokes the layout synchronizer
synchronously as well, not through the frame-coalesced path: when the handler
returns, the clone's textContent equals the new input value, exactly one
layout pass has completed (offset and transform updated from the current
measurement), and the coalescing scheduler state is untouched: no frame
callback was scheduled. -/
theorem c6_input_event_synchronous (m : Measurement) (s : CloneState) :
    (onInput (some m) s).textContent = m.inputValue ∧
    (onInput (some m) s).layoutPasses = s.layoutPasses + 1 ∧
    (onInput (some m) s).xOffset = s.xOffset + m.inputRect.left - m.cloneRect.left ∧
    (onInput (some m) s).styleTransform =
      ((onInput (some m) s).xOffset, (onInput (some m) s).yOffset) ∧
    (onInput (some m) s).scheduledFrames = s.scheduledFrames ∧
    (onInput (some m) s).isLayoutUpdating = s.isLayoutUpdating :=
  ⟨rfl, rfl, rfl, rfl, rfl, rfl⟩

/-- Claim C7: the per-instance scheduler is a two-state machine over idle and
layout-pending: a resize-class signal in the idle state schedules exactly one
animation-frame callback and moves to layout-pending; any number of further
signals while pending leave the state unchanged; when the frame fires, the
layout synchronizer runs exactly once and the state returns to idle with the
scheduled-callback count back where it started: any number of resize-class
signals between two frames produce exactly one layout pass. -/
theorem c7_scheduler_coalesces (n : Nat) (s : CloneState) (m : Measurement)
    (h : s.isLayoutUpdating = false) :
    requestUpdateLayout^[n] (requestUpdateLayout s) = requestUpdateLayout s ∧
    (requestUpdateLayout s).isLayoutUpdating = true ∧
    (requestUpdateLayout s).scheduledFrames = s.scheduledFrames + 1 ∧
    (fireScheduledFrame (some m) (requestUpdateLayout^[n] (requestUpdateLayout s))).layoutPasses
      = s.layoutPasses + 1 ∧
    (fireScheduledFrame (some m) (requestUpdateLayout^[n] (requestUpdateLayout s))).isLayoutUpdating
      = false ∧
    (fireScheduledFrame (some m) (requestUpdateLayout^[n] (requestUpdateLayout s))).scheduledFrames
      = s.scheduledFrames := by
  have h1 : requestUpdateLayout s =
      { s with isLayoutUpdating := true, scheduledFrames := s.scheduledFrames + 1 } := by
    simp [requestUpdateLayout, h]
  have hfix : requestUpdateLayout (requestUpdateLayout s) = requestUpdateLayout s := by
    rw [h1]; simp [requestUpdateLayout]
  have hiter : requestUpdateLayout^[n] (requestUpdateLayout s) = requestUpdateLayout s :=
    Function.iterate_fixed hfix n
  rw [hiter, h1]
  refine ⟨rfl, rfl, rfl, rfl, rfl, ?_⟩
  simp [fireScheduledFrame, updateLayout, usingInput, updateLayoutBody]

/-- Claim C7 witness: three coalesced signals on a concrete idle state. -/
theorem c7_scheduler_coalesces_witness :
    requestUpdateLayout^[3] (requestUpdateLayout sampleState) = requestUpdateLayout sampleState ∧
    (requestUpdateLayout sampleState).isLayoutUpdating = true ∧
    (requestUpdateLayout sampleState).scheduledFrames = sampleState.scheduledFrames + 1 ∧
    (fireScheduledFrame (some sampleMeasurement)
      (requestUpdateLayout^[3] (requestUpdateLayout sampleState))).layoutPasses
      = sampleState.layoutPasses + 1 ∧
    (fireScheduledFrame (some sampleMeasurement)
      (requestUpdateLayout^[3] (requestUpdateLayout sampleState))).isLayoutUpdating = false ∧
    (fireScheduledFrame (some sampleMeasurement)
      (requestUpdateLayout^[3] (requestUpdateLayout sampleState))).scheduledFrames
      = sampleState.scheduledFrames :=
  c7_scheduler_coalesces 3 sampleState sampleMeasurement rfl

/-- Claim C8: when the mirror has no text node because the input's value, and
hence the clone's textContent, is the empty string, createCloneRange returns
the fresh collapsed range without ever calling setStart or setEnd, so no
exception can be raised for any stored offsets, and both rect queries return
a degenerate result: getClientRects the empty list and getBoundingClientRect
the all-zero rect. -/
theorem c8_empty_value_rect_queries_degenerate (L : TextLayout) (r : InputRange) :
    r.createCloneRange "" = Except.ok CloneRange.fresh ∧
    (r.createCloneRange "").map (CloneRange.getClientRects L) = Except.ok [] ∧
    (r.createCloneRange "").map (CloneRange.getBoundingClientRect L) =
      Except.ok DOMRect.zero :=
  ⟨rfl, rfl, rfl⟩

/-- Claim C9 counterexample: a clone instance explicitly detached while its
input is still alive, on which the public geometry query getClientRects does
not fail loudly: it silently returns the empty rect list. -/
theorem c9_detached_query_is_silent :
    p2getClientRects sampleLayout detachedSampleRange = Except.ok [] := rfl

/-- Claim C9 amended: after an explicit detach, the public geometry query
degrades silently instead of failing loudly: getClientRects returns the empty
rect list; the loud failure exists only in the private rect-translation
helper, which throws its explicit error whenever the clone element or the
input is unavailable, and that helper is unreachable from the public query
once the guard has taken the silent branch. -/
theorem c9_detached_behaviour (L : TextLayout) (r : P2Range) (rect : DOMRect)
    (h : r.styleClone = none) :
    p2getClientRects L r = Except.ok [] ∧
    p2offsetCloneRect r rect =
      Except.error
        ("Failed to obtain elements to offset rect. Ensure that the function was not called after unmount.") := by
  obtain ⟨sc, inp, so, eo⟩ := r
  cases h
  cases inp <;> exact ⟨rfl, rfl⟩

/-- Claim C9 amended witness: the amended behaviour at a concrete detached
instance. -/
theorem c9_detached_behaviour_witness :
    p2getClientRects sampleLayout detachedSampleRange = Except.ok [] ∧
    p2offsetCloneRect detachedSampleRange ⟨1, 1, 1, 1⟩ =
      Except.error
        ("Failed to obtain elements to offset rect. Ensure that the function was not called after unmount.") :=
  c9_detached_behaviour sampleLayout detachedSampleRange ⟨1, 1, 1, 1⟩ rfl

/-- Claim C10: fromSelection copies selectionStart and selectionEnd into the
range offsets; when both are null the range is (0, 0); when only
selectionEnd is null the end offset defaults to the start offset, so the
resulting range is collapsed. -/
theorem c10_fromSelection_offsets :
    (∀ v a b, (InputRange.fromSelection ⟨v, some a, some b⟩).startOffset = a ∧
      (InputRange.fromSelection ⟨v, some a, some b⟩).endOffset = b) ∧
    (∀ v, (InputRange.fromSelection ⟨v, none, none⟩).startOffset = 0 ∧
      (InputRange.fromSelection ⟨v, none, none⟩).endOffset = 0) ∧
    (∀ v a, (InputRange.fromSelection ⟨v, some a, none⟩).startOffset = a ∧
      (InputRange.fromSelection ⟨v, some a, none⟩).endOffset = a ∧
      (InputRange.fromSelection ⟨v, some a, none⟩).collapsed = true) := by
  refine ⟨fun v a b => ⟨rfl, rfl⟩, fun v => ⟨rfl, rfl⟩, fun v a => ⟨rfl, rfl, ?_⟩⟩
  simp [InputRange.fromSelection, InputRange.constructOpt, InputRange.construct,
    InputRange.collapsed]
